import Mathlib

/-!
Shallow embedding of the conversation-orchestration core of the natal-chart
WhatsApp bot (NestJS/TypeScript), for checking the natural-language
specification against the code.

Sources embedded:
- `src/astrology/astrology.service.ts` (`AstrologyService`): zodiac table,
  fallback chart computation, provider path of `generateNatalChart`.
- `src/user/user.service.ts` (`UserService.hasCompleteBirthData`).
- `src/conversation/conversation.service.ts` (`ConversationService`):
  the per-state message handlers and `processMessage`.
- `src/ai/ai.service.ts` (`AiService`): advice message-list construction and
  the templated fallbacks.

JavaScript semantics that matter here are modelled explicitly:
- JS `number` arithmetic is modelled with `ℚ` (exact); the operations used by
  the code (`%`, `Math.floor`, comparisons) stay far from binary-rounding
  boundaries on the reachable inputs.
- JS `%` is a truncated remainder (result takes the dividend's sign).
- `arr[i]` out of range (including negative `i`) yields `undefined`, modelled
  as `Option.none`; a JS string value that may be `undefined` is `Option String`.
- `new Date(y, m, d)` normalizes out-of-range month/day by carrying, and maps
  a year in [0, 99] to 1900 + year.
Remote calls (geocoding, OAuth token, chart endpoint, LLM completion) are
injected as environment values: each call's outcome is a parameter, `Except`
for fallible ones, exactly where the code `await`s them.
-/

namespace NatalBot

/-- Apostrophe character, used to build string literals containing `'`. -/
def apos : String := String.singleton (Char.ofNat 39)

/-- JS `Math.trunc` on an exact rational: rounds toward zero. -/
def jsTrunc (x : ℚ) : ℤ := if 0 ≤ x then ⌊x⌋ else ⌈x⌉

/-- JS `%` on numbers: truncated remainder, `x - y * trunc (x / y)`.
The result has the dividend's sign (e.g. `-0.5 % 1 = -0.5`). -/
def jsRem (x y : ℚ) : ℚ := x - y * (jsTrunc (x / y) : ℚ)

/-- JS array indexing `l[i]`: `undefined` (`none`) for a negative or
out-of-range index. -/
def jsIndex (l : List String) (i : ℤ) : Option String :=
  if i < 0 then none else l.get? i.toNat

/-- JS `Array.prototype.indexOf`: index of the first occurrence, `-1` if absent. -/
def jsIndexOf (l : List String) (s : String) : ℤ :=
  match l.findIdx? (fun x => x == s) with
  | some n => (n : ℤ)
  | none => -1

/-- `indexOf` applied to a possibly-`undefined` JS string: `indexOf(undefined)`
finds nothing and returns `-1`. -/
def jsIndexOfOpt (l : List String) (s : Option String) : ℤ :=
  match s with
  | some str => jsIndexOf l str
  | none => -1

/-- JS `a || b` for a possibly-undefined / possibly-empty string: the empty
string is falsy, so it also falls through to the default. -/
def jsOrStr (a : Option String) (b : String) : String :=
  match a with
  | some s => if s = "" then b else s
  | none => b

/-! ### Calendar model of the JS `Date` constructor

`new Date(year, monthIndex, day)` first maps `year ∈ [0, 99]` to
`1900 + year`, folds `monthIndex` into the year (floor division), then
resolves an out-of-range day-of-month by carrying/borrowing whole months.
`getFullYear` / `getMonth` / `getDate` project the normalized components. -/

/-- Gregorian leap-year rule (as used by JS `Date`). -/
def isLeap (y : ℤ) : Bool := (y % 4 == 0 && y % 100 != 0) || (y % 400 == 0)

/-- Number of days in month `m` (1-based) of year `y`. -/
def daysInMonth (y m : ℤ) : ℤ :=
  if m = 2 then (if isLeap y then 29 else 28)
  else if m = 4 ∨ m = 6 ∨ m = 9 ∨ m = 11 then 30
  else 31

/-- Day-of-month normalization by month carry/borrow. The day values reachable
here come from 1–2 digit regex captures (0–99), so at most four carries occur;
the fuel of 8 used below is never exhausted on reachable inputs. The month
component stays in [1, 12] throughout. -/
def normDay : Nat → ℤ → ℤ → ℤ → ℤ × ℤ × ℤ
  | 0, y, m, d => (y, m, d)
  | Nat.succ fuel, y, m, d =>
    if d < 1 then
      let y2 := if m = 1 then y - 1 else y
      let m2 := if m = 1 then 12 else m - 1
      normDay fuel y2 m2 (d + daysInMonth y2 m2)
    else if daysInMonth y m < d then
      let y2 := if m = 12 then y + 1 else y
      let m2 := if m = 12 then 1 else m + 1
      normDay fuel y2 m2 (d - daysInMonth y m)
    else (y, m, d)

/-- `new Date(y, m - 1, d)` for a 1-based month `m`, returning the normalized
`(getFullYear(), getMonth() + 1, getDate())` triple. -/
def jsMakeDate (y m d : ℤ) : ℤ × ℤ × ℤ :=
  let y1 := if 0 ≤ y ∧ y ≤ 99 then y + 1900 else y
  let m0 := m - 1
  let y2 := y1 + m0.fdiv 12
  let m2 := m0.fmod 12 + 1
  normDay 8 y2 m2 d

/-- A calendar date as stored in the user record (`birthDate`). -/
structure CivilDate where
  year : ℤ
  month : ℤ
  day : ℤ
deriving DecidableEq, Repr

/-- Days since the Unix epoch of a civil date (Howard Hinnant's
`days_from_civil`); used to model `Date.prototype.getTime`. -/
def daysFromCivil (c : CivilDate) : ℤ :=
  let y := if c.month ≤ 2 then c.year - 1 else c.year
  let era := y.fdiv 400
  let yoe := y - era * 400
  let mp := if 2 < c.month then c.month - 3 else c.month + 9
  let doy := (153 * mp + 2).fdiv 5 + c.day - 1
  let doe := yoe * 365 + yoe.fdiv 4 - yoe.fdiv 100 + doy
  era * 146097 + doe - 719468

/-- `getTime()` of the stored birth date: epoch milliseconds of its midnight
(modelled at UTC offset 0). -/
def civilMillis (c : CivilDate) : ℤ := daysFromCivil c * 86400000

/-- Strict `>` on dates (`birthDate > now` compares instants; the stored birth
date is a midnight, so at the date granularity it is lexicographic). -/
def civilGt (a b : CivilDate) : Bool :=
  a.year > b.year || (a.year == b.year && (a.month > b.month ||
    (a.month == b.month && a.day > b.day)))

/-! ### Zodiac table (`AstrologyService`) -/

/-- The `zodiacSigns` array, in the source's order. -/
def zodiacSigns : List String :=
  ["Aries", "Taurus", "Gemini", "Cancer", "Leo", "Virgo",
   "Libra", "Scorpio", "Sagittarius", "Capricorn", "Aquarius", "Pisces"]

/-- One row of the `zodiacDates` table of `getZodiacSign`. -/
structure ZodiacRange where
  sign : String
  startM : ℤ
  startD : ℤ
  endM : ℤ
  endD : ℤ
deriving DecidableEq, Repr

/-- The `zodiacDates` table, rows in the source's order. -/
def zodiacDates : List ZodiacRange :=
  [⟨"Capricorn", 1, 1, 1, 19⟩,
   ⟨"Aquarius", 1, 20, 2, 18⟩,
   ⟨"Pisces", 2, 19, 3, 20⟩,
   ⟨"Aries", 3, 21, 4, 19⟩,
   ⟨"Taurus", 4, 20, 5, 20⟩,
   ⟨"Gemini", 5, 21, 6, 20⟩,
   ⟨"Cancer", 6, 21, 7, 22⟩,
   ⟨"Leo", 7, 23, 8, 22⟩,
   ⟨"Virgo", 8, 23, 9, 22⟩,
   ⟨"Libra", 9, 23, 10, 22⟩,
   ⟨"Scorpio", 10, 23, 11, 21⟩,
   ⟨"Sagittarius", 11, 22, 12, 21⟩,
   ⟨"Capricorn", 12, 22, 12, 31⟩]

/-- `getZodiacSign`: first table row whose range contains the month/day pair,
with `afterStart`/`beforeEnd` exactly as in the source; `"Capricorn"` if no
row matches. -/
def getZodiacSign (month day : ℤ) : String :=
  match zodiacDates.find? (fun z =>
      (month > z.startM || (month == z.startM && day ≥ z.startD)) &&
      (month < z.endM || (month == z.endM && day ≤ z.endD))) with
  | some z => z.sign
  | none => "Capricorn"

/-! ### Chart data model -/

structure PlanetPosition where
  planet : String
  sign : Option String
  degree : ℚ
  house : ℤ
  isRetrograde : Bool
deriving DecidableEq, Repr

structure HouseData where
  house : ℤ
  sign : Option String
  degree : ℚ
deriving DecidableEq, Repr

structure AspectData where
  planet1 : String
  planet2 : String
  aspect : String
  orb : ℚ
deriving DecidableEq, Repr

structure NatalChart where
  sunSign : String
  moonSign : Option String
  ascendant : Option String
  planets : List PlanetPosition
  houses : List HouseData
  aspects : List AspectData
  rawApiResponse : String
  aiInterpretation : Option String
deriving DecidableEq, Repr

/-! ### Fallback chart computation (`calculateBasicChart`) -/

/-- `getAdjacentSign`: `zodiacSigns[(indexOf(sign) + offset + 12) % 12]`.
The argument of `%` is nonnegative for every call the code makes, so the JS
truncated remainder agrees with `Int.tmod`. -/
def getAdjacentSign (sign : String) (offset : ℤ) : Option String :=
  jsIndex zodiacSigns (Int.tmod (jsIndexOf zodiacSigns sign + offset + 12) 12)

/-- `createBasicPlanets`: seven synthetic planet rows offset from the sun sign. -/
def createBasicPlanets (_date : CivilDate) (sunSign : String)
    (moonSign : Option String) : List PlanetPosition :=
  [⟨"Sun", some sunSign, 15, 1, false⟩,
   ⟨"Moon", moonSign, 15, 4, false⟩,
   ⟨"Mercury", some sunSign, 10, 1, false⟩,
   ⟨"Venus", getAdjacentSign sunSign (-1), 20, 12, false⟩,
   ⟨"Mars", getAdjacentSign sunSign 2, 5, 3, false⟩,
   ⟨"Jupiter", getAdjacentSign sunSign 4, 12, 5, false⟩,
   ⟨"Saturn", getAdjacentSign sunSign 6, 25, 7, false⟩]

/-- `createBasicHouses`: twelve houses cycling from the ascendant's index
(`indexOf` of an `undefined` ascendant is `-1`, and `-1 % 12 = -1` in JS). -/
def createBasicHouses (ascendant : Option String) : List HouseData :=
  let ascIndex := jsIndexOfOpt zodiacSigns ascendant
  (List.range 12).map (fun i =>
    ⟨(i : ℤ) + 1, jsIndex zodiacSigns (Int.tmod (ascIndex + (i : ℤ)) 12), 0⟩)

/-- The moon-sign index of `calculateBasicChart`:
`Math.floor(((birthDate.getTime() / (28 * 24 * 60 * 60 * 1000)) % 1) * 12)`,
with the JS truncated remainder. -/
def moonSignIndex (millis : ℤ) : ℤ :=
  Int.floor (jsRem ((millis : ℚ) / 2419200000) 1 * 12)

/-- The `rawApiResponse` payload stored by the fallback computation. -/
def basicCalculationRaw : String :=
  "\x7b\x22method\x22:\x22basic_calculation\x22,\x22note\x22:\x22This is an approximation. For accurate readings, please configure an astrology API.\x22\x7d"

/-- `calculateBasicChart`: the deterministic fallback chart. -/
def calculateBasicChart (birthDate : CivilDate) (hours minutes : ℤ)
    (_latitude _longitude : ℚ) : NatalChart :=
  let sunSign := getZodiacSign birthDate.month birthDate.day
  let moonSign := jsIndex zodiacSigns (moonSignIndex (civilMillis birthDate))
  let ascendantOffset : ℚ := ((hours : ℚ) + (minutes : ℚ) / 60) / 2
  let sunSignIndex := jsIndexOf zodiacSigns sunSign
  let ascendantIndex := Int.floor (jsRem ((sunSignIndex : ℚ) + ascendantOffset) 12)
  let ascendant := jsIndex zodiacSigns ascendantIndex
  { sunSign := sunSign
    moonSign := moonSign
    ascendant := ascendant
    planets := createBasicPlanets birthDate sunSign moonSign
    houses := createBasicHouses ascendant
    aspects := []
    rawApiResponse := basicCalculationRaw
    aiInterpretation := none }

/-! ### Provider path of `generateNatalChart`

The remote steps are injected: `hasCredentials` models the two config values
being present, `tokenResult` the OAuth token exchange, and `chartResult` the
kundli request together with the parsing of its response into a chart
(`parseProkeralaPlanets` / `parseProkeralaHouses` / sun-moon-ascendant
extraction). Each `Except.error` stands for a thrown provider-path error. -/

instance {ε α : Type} [DecidableEq ε] [DecidableEq α] : DecidableEq (Except ε α)
  | .error e, .error f =>
    if h : e = f then .isTrue (congrArg Except.error h)
    else .isFalse (fun hc => h (Except.error.inj hc))
  | .error _, .ok _ => .isFalse (fun hc => Except.noConfusion hc)
  | .ok _, .error _ => .isFalse (fun hc => Except.noConfusion hc)
  | .ok x, .ok y =>
    if h : x = y then .isTrue (congrArg Except.ok h)
    else .isFalse (fun hc => h (Except.ok.inj hc))

structure ProviderEnv where
  hasCredentials : Bool
  tokenResult : Except Unit String
  chartResult : Except Unit NatalChart
deriving DecidableEq

/-- `getProkeralaToken`: throws when credentials are not configured, otherwise
returns the token-exchange outcome (the cache only short-circuits a success). -/
def getProkeralaToken (env : ProviderEnv) : Except Unit String :=
  if env.hasCredentials then env.tokenResult else .error ()

/-- `fetchFromProkerala`: token first, then the chart request + response parse. -/
def fetchFromProkerala (env : ProviderEnv) : Except Unit NatalChart := do
  let _token ← getProkeralaToken env
  env.chartResult

/-- `generateNatalChart`'s try/catch over the provider path: any error from
`fetchFromProkerala` is caught and replaced by the fallback computation.
(`chartRepository.save` is an injected persistence capability, modelled as
the identity.) -/
def generateNatalChart (env : ProviderEnv) (birthDate : CivilDate)
    (hours minutes : ℤ) (latitude longitude : ℚ) : NatalChart :=
  match fetchFromProkerala env with
  | .ok chart => chart
  | .error _ => calculateBasicChart birthDate hours minutes latitude longitude

/-! ### String helpers for the JS operations the handlers use -/

/-- A JS whitespace character of the kinds that occur in chat input. -/
def isJsSpace (c : Char) : Bool := c == ' ' || c == '\t' || c == '\n' || c == '\r'

/-- JS `trim`: strip leading and trailing whitespace. -/
def jsTrim (s : String) : String :=
  String.mk (((s.data.dropWhile isJsSpace).reverse.dropWhile isJsSpace).reverse)

/-- JS `toLowerCase` restricted to the ASCII range, which covers every
command keyword the code compares against. -/
def jsToLower (s : String) : String := String.mk (s.data.map Char.toLower)

/-- Core of `String.prototype.includes` on character lists. -/
def listContainsSub (sub : List Char) : List Char → Bool
  | [] => sub.isEmpty
  | c :: t => sub.isPrefixOf (c :: t) || listContainsSub sub t

/-- JS `s.includes(sub)`. -/
def strContains (s sub : String) : Bool := listContainsSub sub.data s.data

/-- Numeric value of a digit string (as consumed by `parseInt` on a regex
capture consisting of digits only). -/
def digitsVal (l : List Char) : ℕ :=
  l.foldl (fun a c => a * 10 + (c.toNat - 48)) 0

/-! ### Regex matchers

`handleBirthDateInput` matches `(\d{1,2})[\/\-\.](\d{1,2})[\/\-\.](\d{4})`,
`handleBirthTimeInput` matches `(\d{1,2}):(\d{2})`. JS regex search tries
each start position left to right; a greedy `\d{1,2}` tries two digits
before backtracking to one. -/

/-- A date-separator character (`[\/\-\.]`). -/
def isSep (c : Char) : Bool := c == '/' || c == '-' || c == '.'

/-- Exactly `n` digits from the front of the list, with the rest. -/
def takeDigitsExact : ℕ → List Char → Option (List Char × List Char)
  | 0, l => some ([], l)
  | n + 1, c :: t =>
    if c.isDigit then (takeDigitsExact n t).map (fun p => (c :: p.1, p.2))
    else none
  | _ + 1, [] => none

/-- One day-length/month-length alternative of the date pattern at a fixed
start position. -/
def dateComboAt (nd nm : ℕ) (l : List Char) : Option (List Char × List Char × List Char) :=
  match takeDigitsExact nd l with
  | none => none
  | some (ds, r1) =>
    match r1 with
    | s1 :: r2 =>
      if isSep s1 then
        match takeDigitsExact nm r2 with
        | none => none
        | some (ms, r3) =>
          match r3 with
          | s2 :: r4 =>
            if isSep s2 then
              match takeDigitsExact 4 r4 with
              | none => none
              | some (ys, _) => some (ds, ms, ys)
            else none
          | [] => none
      else none
    | [] => none

/-- The date pattern at a fixed start position, alternatives in the greedy
backtracking order (day 2 then 1, month 2 then 1). -/
def dateMatchAt (l : List Char) : Option (List Char × List Char × List Char) :=
  dateComboAt 2 2 l <|> dateComboAt 2 1 l <|> dateComboAt 1 2 l <|> dateComboAt 1 1 l

/-- First (leftmost) match of the date pattern. -/
def firstDateMatch : List Char → Option (List Char × List Char × List Char)
  | [] => none
  | c :: t => dateMatchAt (c :: t) <|> firstDateMatch t

/-- The time pattern `(\d{1,2}):(\d{2})` at a fixed start position, trying a
two-digit hour before a one-digit one. -/
def timeMatchAt (l : List Char) : Option (List Char × List Char) :=
  match l with
  | a :: rest =>
    if a.isDigit then
      (match rest with
       | b :: c :: m1 :: m2 :: _ =>
         if b.isDigit && c == ':' && m1.isDigit && m2.isDigit then
           some ([a, b], [m1, m2])
         else none
       | _ => none)
      <|>
      (match rest with
       | c :: m1 :: m2 :: _ =>
         if c == ':' && m1.isDigit && m2.isDigit then some ([a], [m1, m2])
         else none
       | _ => none)
    else none
  | [] => none

/-- First (leftmost) match of the time pattern. -/
def firstTimeMatch : List Char → Option (List Char × List Char)
  | [] => none
  | c :: t => timeMatchAt (c :: t) <|> firstTimeMatch t

/-! ### Reply messages (verbatim from `conversation.service.ts`) -/

def welcomeMsg : String :=
  "✨ *Welcome to Natal Chart Bot!* ✨\n\nI" ++ apos ++
  "m your personal astrology guide. I" ++ apos ++
  "ll create your unique birth chart and provide insights about your life path, personality, and cosmic influences.\n\nTo begin, *what" ++
  apos ++ "s your name?*"

def invalidNameMsg : String := "Please enter a valid name (at least 2 characters)."

def nameSavedMsg (cleanName : String) : String :=
  "Nice to meet you, *" ++ cleanName ++
  "*! 🌟\n\nNow I need your birth date to create your natal chart.\n\n*Please enter your birth date* in format:\n📅 DD/MM/YYYY (e.g., 25/12/1990)"

def invalidDateFormatMsg : String :=
  "❌ Invalid date format. Please use DD/MM/YYYY format.\n\nExample: 25/12/1990"

def notValidDateMsg : String :=
  "❌ That doesn" ++ apos ++ "t seem to be a valid date. Please check and try again."

def futureDateMsg : String := "❌ Birth date cannot be in the future!"

def pre1900Msg : String := "❌ Please enter a birth year after 1900."

def dateSavedMsg (ds ms ys : String) : String :=
  "📅 Birth date saved: *" ++ ds ++ "/" ++ ms ++ "/" ++ ys ++
  "*\n\nNow, *what time were you born?*\n\nPlease enter in 24-hour format:\n🕐 HH:MM (e.g., 14:30 or 09:15)\n\n💡 _If you don" ++
  apos ++ "t know your exact birth time, type \x22unknown\x22 and I" ++ apos ++
  "ll use noon (12:00)._"

def invalidTimeFormatMsg : String :=
  "❌ Invalid time format. Please use HH:MM format.\n\nExample: 14:30 or type \x22unknown\x22"

def invalidTimeValueMsg : String :=
  "❌ Invalid time. Hours should be 0-23 and minutes 0-59."

def timeSavedMsg (birthTime : String) : String :=
  "🕐 Birth time saved: *" ++ birthTime ++
  "*\n\nFinally, *where were you born?*\n\nPlease enter your birth city and country:\n📍 Example: London, UK or New York, USA"

def invalidCityMsg : String := "Please enter a valid city name."

def couldNotFindMsg : String :=
  "❌ I couldn" ++ apos ++
  "t find that location. Please try again with a more specific location.\n\nExample: \x22London, United Kingdom\x22 or \x22New York City, USA\x22"

def resetMsg : String :=
  "🔄 Starting over! Let" ++ apos ++ "s create a new chart.\n\n*What" ++ apos ++
  "s your name?*"

/-! ### Input parsing cores -/

/-- Character class kept by `handleNameInput`'s sanitization regex
`[^a-zA-Zа-яА-Я\s-']` (Latin and Cyrillic letters, whitespace, hyphen,
apostrophe). -/
def isNameChar (c : Char) : Bool :=
  ('a' ≤ c && c ≤ 'z') || ('A' ≤ c && c ≤ 'Z') ||
  (0x430 ≤ c.toNat && c.toNat ≤ 0x44F) ||
  (0x410 ≤ c.toNat && c.toNat ≤ 0x42F) ||
  c == ' ' || c == '\t' || c == '\n' || c == '\r' || c == '-' || c.toNat == 39

/-- `name.trim().replace(/[^a-zA-Zа-яА-Я\s-']/g, '')`. -/
def sanitizeName (s : String) : String := String.mk ((jsTrim s).data.filter isNameChar)

/-- The echo check of `handleBirthDateInput`: the constructed `Date`'s
day/month/year must equal the parsed components. -/
def dateEchoOk (d m y : ℤ) : Bool := decide (jsMakeDate y m d = (y, m, d))

/-- Validation chain of `handleBirthDateInput` after a successful pattern
match: echo check, then future check, then the 1900 floor. -/
def validateParsedDate (d m y : ℤ) (now : CivilDate) : Except String CivilDate :=
  if dateEchoOk d m y then
    if civilGt ⟨y, m, d⟩ now then .error futureDateMsg
    else if y < 1900 then .error pre1900Msg
    else .ok ⟨y, m, d⟩
  else .error notValidDateMsg

/-- Full outcome of `handleBirthDateInput`'s parsing and validation: an error
reply, or the captured day/month/year strings together with the date. -/
def birthDateOutcome (input : String) (now : CivilDate) :
    Except String (String × String × String × CivilDate) :=
  match firstDateMatch input.data with
  | none => .error invalidDateFormatMsg
  | some (ds, ms, ys) =>
    match validateParsedDate (digitsVal ds) (digitsVal ms) (digitsVal ys) now with
    | .error msg => .error msg
    | .ok c => .ok (String.mk ds, String.mk ms, String.mk ys, c)

/-- `"don't know"`, built without a literal apostrophe. -/
def dontKnowStr : String := "don" ++ apos ++ "t know"

/-- `hours.padStart(2, '0')` on a 1–2 digit capture. -/
def padHours (hs : List Char) : List Char := if hs.length = 1 then '0' :: hs else hs

/-- Outcome of `handleBirthTimeInput`'s parsing and validation: the stored
`HH:MM` string or an error reply. The source also checks `h < 0 || m < 0`,
which cannot happen for digit-only captures. -/
def birthTimeOutcome (input : String) : Except String String :=
  if strContains (jsToLower input) "unknown" ||
     strContains (jsToLower input) dontKnowStr then
    .ok "12:00"
  else
    match firstTimeMatch input.data with
    | none => .error invalidTimeFormatMsg
    | some (hs, ms) =>
      if digitsVal hs > 23 || digitsVal ms > 59 then .error invalidTimeValueMsg
      else .ok (String.mk (padHours hs) ++ ":" ++ String.mk ms)

/-! ### User record and message log entries -/

inductive ConversationState
  | NEW
  | AWAITING_NAME
  | AWAITING_BIRTH_DATE
  | AWAITING_BIRTH_TIME
  | AWAITING_BIRTH_PLACE
  | CHART_READY
  | CHATTING
deriving DecidableEq, Repr

inductive MessageRole
  | USER
  | ASSISTANT
  | SYSTEM
deriving DecidableEq, Repr

/-- A persisted conversation turn (identity and timestamp omitted; ordering
is the list order in which the repository returns them). -/
structure Message where
  role : MessageRole
  content : String
deriving DecidableEq, Repr

/-- The mutable fields of the `User` entity used by the core (nullable
columns are `Option`). -/
structure UserRec where
  name : Option String
  birthDate : Option CivilDate
  birthTime : Option String
  birthPlace : Option String
  birthLatitude : Option ℚ
  birthLongitude : Option ℚ
  timezone : Option String
  conversationState : ConversationState
  natalChart : Option NatalChart
deriving DecidableEq, Repr

/-- JS truthiness of a nullable string column: `null`/`undefined` and `""`
are falsy. -/
def optStrTruthy : Option String → Bool
  | none => false
  | some s => !(s == "")

/-- JS truthiness of a nullable number column: `null`/`undefined` and `0`
are falsy. -/
def optNumTruthy : Option ℚ → Bool
  | none => false
  | some q => !(q == 0)

/-- `UserService.hasCompleteBirthData`:
`!!(birthDate && birthTime && birthPlace && birthLatitude && birthLongitude)`
(a `Date` object is always truthy). -/
def hasCompleteBirthData (u : UserRec) : Bool :=
  u.birthDate.isSome && optStrTruthy u.birthTime && optStrTruthy u.birthPlace &&
  optNumTruthy u.birthLatitude && optNumTruthy u.birthLongitude

/-- Geocoding result (`GeoLocation` interface). -/
structure GeoLocation where
  latitude : ℚ
  longitude : ℚ
  timezone : String
  formattedAddress : Option String
deriving DecidableEq, Repr

/-! ### `AiService`

The OpenAI client is injected: `openaiConfigured` models the API key being
present, and `llmResult` the completion call's outcome for the (at most one)
completion a turn performs — `ok (some s)` a response with content `s`,
`ok none` a response missing content, `error` a thrown request error. -/

/-- Rendering of a possibly-`undefined` string inside a JS template literal. -/
def jsShow : Option String → String
  | some s => s
  | none => "undefined"

def troubleMsg : String :=
  "I" ++ apos ++ "m having trouble thinking right now. Please try again."

def noChartYetMsg : String :=
  "❌ I don" ++ apos ++ "t have your chart yet. Let" ++ apos ++ "s create one first!"

/-- One planet line of the advisor system prompt. -/
def planetLine (p : PlanetPosition) : String :=
  "- " ++ p.planet ++ " in " ++ jsShow p.sign ++ "\n"

/-- `buildAdvisorSystemPrompt`: embeds the user's placements and up to the
first 7 planets. -/
def buildAdvisorSystemPrompt (u : UserRec) : String :=
  let chart := u.natalChart
  let base :=
    "You are a wise astrological advisor providing personalized guidance to " ++
    jsOrStr u.name "this person" ++
    ".\n\nTheir Natal Chart Profile:\n- Sun Sign: " ++
    jsOrStr (chart.map NatalChart.sunSign) "Unknown" ++
    " (Core identity, ego, life force)\n- Moon Sign: " ++
    jsOrStr (chart.bind NatalChart.moonSign) "Unknown" ++
    " (Emotions, instincts, inner self)\n- Ascendant: " ++
    jsOrStr (chart.bind NatalChart.ascendant) "Unknown" ++
    " (How they appear to others, first impressions)\n"
  let planetsPart :=
    match chart with
    | some c =>
      "\nKey Planetary Placements:\n" ++
      String.join ((c.planets.take 7).map planetLine)
    | none => ""
  base ++ planetsPart ++
  "\nGuidelines for your responses:\n1. Always consider their chart when giving advice\n2. Be warm, supportive, and mystically insightful\n3. Provide practical, actionable guidance\n4. Reference their specific placements when relevant\n5. Keep responses concise (under 300 words) and formatted for WhatsApp\n6. Use *bold* for emphasis and emojis sparingly\n7. For relationship questions, consider their Venus placement\n8. For career questions, consider their Saturn and 10th house\n9. For emotional matters, focus on their Moon sign\n\nNever break character. You are their personal astrological guide."

/-- `messageHistory.slice(-8)`: the last `8` elements of the supplied list
(the whole list when it is shorter). -/
def jsSliceLastEight (l : List Message) : List Message := l.drop (l.length - 8)

/-- The provider role string of a history turn:
`msg.role === USER ? 'user' : 'assistant'`. -/
def historyRole (r : MessageRole) : String :=
  match r with
  | .USER => "user"
  | _ => "assistant"

/-- The `(role, content)` message list `getPersonalizedAdvice` sends to the
completion endpoint: system prompt, then `messageHistory.slice(-8).reverse()`,
then the new question. -/
def buildAdviceMessages (u : UserRec) (question : String)
    (messageHistory : List Message) : List (String × String) :=
  ("system", buildAdvisorSystemPrompt u) ::
  ((jsSliceLastEight messageHistory).reverse.map
    (fun m => (historyRole m.role, m.content))) ++
  [("user", question)]

/-- `getFallbackInterpretation`: the templated chart reading. -/
def getFallbackInterpretation (chart : NatalChart) : String :=
  "🌟 *Your Cosmic Blueprint*\n\nAs a *" ++ chart.sunSign ++
  "* Sun, your core essence radiates with the energy of this sign. Your identity, ego, and life force are colored by " ++
  chart.sunSign ++ apos ++
  "s unique characteristics.\n\nWith your Moon in *" ++ jsShow chart.moonSign ++
  "*, your emotional world runs deep. This placement reveals how you process feelings, seek comfort, and nurture yourself and others.\n\nYour *" ++
  jsShow chart.ascendant ++
  "* Ascendant is the mask you show the world - it" ++ apos ++
  "s how others first perceive you and how you initiate new beginnings.\n\n*Key Themes for You:*\n• Embrace your " ++
  chart.sunSign ++ " strengths\n• Honor your " ++ jsShow chart.moonSign ++
  " emotional needs\n• Use your " ++ jsShow chart.ascendant ++
  " rising energy to make great first impressions\n\nAsk me specific questions about love, career, or personal growth to get deeper insights! 🔮"

/-- `getFallbackAdvice`: keyword-matched canned templates. -/
def getFallbackAdvice (u : UserRec) (question : String) : String :=
  let chart := u.natalChart
  let sunSign := jsOrStr (chart.map NatalChart.sunSign) "your sign"
  let questionLower := jsToLower question
  if strContains questionLower "love" || strContains questionLower "relationship" then
    "💕 *Love Insight for " ++ sunSign ++ "*\n\nYour " ++ sunSign ++
    " nature influences how you love. Remember to balance your " ++
    jsOrStr (chart.bind NatalChart.moonSign) "emotional" ++
    " needs with your partner" ++ apos ++
    "s energy.\n\nKey advice: Communication is essential. Express your feelings openly and listen with compassion."
  else if strContains questionLower "career" || strContains questionLower "work" ||
      strContains questionLower "job" then
    "💼 *Career Insight for " ++ sunSign ++ "*\n\nYour " ++ sunSign ++
    " energy brings unique gifts to your professional life. Trust your natural abilities and don" ++
    apos ++
    "t be afraid to lead.\n\nKey advice: This is a time for strategic planning. Set clear goals and take consistent action."
  else
    "🔮 *Guidance for " ++ jsOrStr u.name "You" ++ "*\n\nAs a " ++ sunSign ++
    ", trust your natural instincts on this matter. Your " ++
    jsOrStr (chart.bind NatalChart.moonSign) "emotional" ++
    " Moon helps you sense the right path.\n\nKey advice: Take time to reflect before making major decisions. The stars support thoughtful action.\n\nFeel free to ask me more specific questions! 🌟"

/-! ### `ConversationService` — the state machine

Per-turn environment: every external call a turn can make is injected as its
outcome, exactly where the code `await`s it. `history` is what
`getRecentMessages(user.id, 10)` returns — ordered by `createdAt`
descending, i.e. newest first. `todayWeekday`/`todayDateStr` model
`new Date()`'s rendering in the fallback horoscope. -/

structure ConvEnv where
  now : CivilDate
  geocode : Except Unit GeoLocation
  provider : ProviderEnv
  openaiConfigured : Bool
  llmResult : Except Unit (Option String)
  transits : List PlanetPosition
  history : List Message
  todayWeekday : String
  todayDateStr : String
deriving DecidableEq

/-- `getFallbackDailyHoroscope`: the fixed-structure template. -/
def getFallbackDailyHoroscope (env : ConvEnv) (u : UserRec) : String :=
  let chart := u.natalChart
  "🌅 *Daily Horoscope for " ++
  jsOrStr u.name (jsShow (chart.map NatalChart.sunSign)) ++ "*\n📅 " ++
  env.todayWeekday ++ ", " ++ env.todayDateStr ++
  "\n\n*Overall Energy:* ⭐⭐⭐⭐\n\nAs a " ++
  jsOrStr (chart.map NatalChart.sunSign) "cosmic" ++
  " soul, today brings opportunities for growth and connection. Your " ++
  jsOrStr (chart.bind NatalChart.moonSign) "emotional" ++
  " Moon encourages you to trust your feelings.\n\n*Focus Areas:*\n💕 Love: Open heart conversations\n💼 Career: Creative problem-solving\n🧘 Wellness: Take mindful breaks\n\n*Power Word:* ✨ *Balance* ✨\n\nRemember, you create your own luck. Make today count! 🌟"

/-- `AiService.getDailyHoroscope`: fails fast without a chart, otherwise the
completion outcome with the template as fallback (transits are fetched from
the environment before the configuration check, as in the source). -/
def getDailyHoroscope (env : ConvEnv) (u : UserRec) : String :=
  match u.natalChart with
  | none => noChartYetMsg
  | some _ =>
    let _transits := env.transits
    if env.openaiConfigured then
      match env.llmResult with
      | .ok (some content) => content
      | .ok none => getFallbackDailyHoroscope env u
      | .error _ => getFallbackDailyHoroscope env u
    else getFallbackDailyHoroscope env u

/-- `AiService.getPersonalizedAdvice`: template fallback when the client is
not configured or the call fails; a contentless response yields the retry
line. The message list it sends is `buildAdviceMessages`. -/
def getPersonalizedAdvice (env : ConvEnv) (u : UserRec) (question : String)
    (_messageHistory : List Message) : String :=
  if env.openaiConfigured then
    match env.llmResult with
    | .ok (some content) => content
    | .ok none => troubleMsg
    | .error _ => getFallbackAdvice u question
  else getFallbackAdvice u question

/-- `AiService.interpretNatalChart`: completion outcome with the template
interpretation as fallback on a missing key, missing content, or an error. -/
def interpretNatalChart (env : ConvEnv) (chart : NatalChart) : String :=
  if env.openaiConfigured then
    match env.llmResult with
    | .ok (some content) => content
    | .ok none => getFallbackInterpretation chart
    | .error _ => getFallbackInterpretation chart
  else getFallbackInterpretation chart

/-! ### Per-state handlers

Each handler returns `(reply, updated user, chart persisted this turn)`. -/

def handleNewUser (u : UserRec) : String × UserRec × Option NatalChart :=
  (welcomeMsg, { u with conversationState := .AWAITING_NAME }, none)

def handleNameInput (u : UserRec) (name : String) :
    String × UserRec × Option NatalChart :=
  let cleanName := sanitizeName name
  if cleanName.length < 2 then (invalidNameMsg, u, none)
  else
    (nameSavedMsg cleanName,
     { u with name := some cleanName, conversationState := .AWAITING_BIRTH_DATE },
     none)

def handleBirthDateInput (env : ConvEnv) (u : UserRec) (input : String) :
    String × UserRec × Option NatalChart :=
  match birthDateOutcome input env.now with
  | .error msg => (msg, u, none)
  | .ok (ds, ms, ys, c) =>
    (dateSavedMsg ds ms ys,
     { u with birthDate := some c, conversationState := .AWAITING_BIRTH_TIME },
     none)

def handleBirthTimeInput (u : UserRec) (input : String) :
    String × UserRec × Option NatalChart :=
  match birthTimeOutcome input with
  | .error msg => (msg, u, none)
  | .ok bt =>
    (timeSavedMsg bt,
     { u with birthTime := some bt, conversationState := .AWAITING_BIRTH_PLACE },
     none)

def chartGenerationMsg (addr : String) : String :=
  "📍 Location found: *" ++ addr ++ "*\n\n⏳ *Calculating your natal chart...*"

def chartReadyReply (addr : String) (chart : NatalChart)
    (interpretation : String) : String :=
  chartGenerationMsg addr ++
  "\n\n✅ *Your Natal Chart is Ready!*\n\n☀️ *Sun Sign:* " ++ chart.sunSign ++
  "\n🌙 *Moon Sign:* " ++ jsShow chart.moonSign ++
  "\n⬆️ *Ascendant:* " ++ jsShow chart.ascendant ++
  "\n\n---\n\n" ++ interpretation ++
  "\n\n---\n\n🔮 You can now ask me anything about your chart, life path, relationships, career, or get personalized advice!\n\nType *\x22menu\x22* to see what I can help you with."

/-- `user.birthTime.split(':').map(Number)` destructured into hours/minutes;
stored birth times always have the `HH:MM` shape. -/
def splitListOn (sep : Char) : List Char → List (List Char)
  | [] => [[]]
  | c :: t =>
    let r := splitListOn sep t
    if c == sep then [] :: r
    else
      match r with
      | h :: t2 => (c :: h) :: t2
      | [] => [[c]]

def parseHoursMinutes (bt : String) : ℤ × ℤ :=
  match splitListOn ':' bt.data with
  | h :: m :: _ => ((digitsVal h : ℤ), (digitsVal m : ℤ))
  | _ => ((digitsVal bt.data : ℤ), 0)

/-- `handleBirthPlaceInput`: length check, then geocode; on success the birth
fields are persisted, the chart generated and saved, the state advanced to
CHART_READY, and the interpretation fetched. A geocoding error is caught and
answered with the retry prompt before any field is written. The arm with a
missing stored birth date or time models the `try` block's only other throw
site (`user.birthTime.split` on `undefined`), unreachable through the state
machine's own flow. -/
def handleBirthPlaceInput (env : ConvEnv) (u : UserRec) (input : String) :
    String × UserRec × Option NatalChart :=
  let place := jsTrim input
  if place.length < 2 then (invalidCityMsg, u, none)
  else
    match env.geocode with
    | .error _ => (couldNotFindMsg, u, none)
    | .ok loc =>
      let addr := jsOrStr loc.formattedAddress place
      let u1 := { u with birthPlace := some addr,
                         birthLatitude := some loc.latitude,
                         birthLongitude := some loc.longitude,
                         timezone := some loc.timezone }
      match u1.birthDate, u1.birthTime with
      | some bd, some bt =>
        let hm := parseHoursMinutes bt
        let chart := generateNatalChart env.provider bd hm.1 hm.2
          loc.latitude loc.longitude
        let u2 := { u1 with conversationState := .CHART_READY,
                            natalChart := some chart }
        let interp := interpretNatalChart env chart
        (chartReadyReply addr chart interp, u2, some chart)
      | _, _ => (couldNotFindMsg, u1, none)

def menuText : String :=
  "🔮 *What can I help you with?*\n\n📊 *\x22my chart\x22* - View your natal chart summary\n🌅 *\x22today\x22* - Get your daily horoscope\n💕 *\x22love\x22* - Relationship insights\n💼 *\x22career\x22* - Career guidance\n🧘 *\x22health\x22* - Wellness advice\n🔄 *\x22reset\x22* - Create a new chart\n\nOr simply ask me any question about your life, personality, or future!"

def noChartSummaryMsg : String := "❌ No chart found. Type *reset* to create one."

/-- Rendering of the stored birth date inside the summary template. -/
def civilDateStr (c : CivilDate) : String :=
  toString c.year ++ "-" ++ toString c.month ++ "-" ++ toString c.day

def getChartSummary (u : UserRec) : String :=
  match u.natalChart with
  | none => noChartSummaryMsg
  | some chart =>
    "📊 *Your Natal Chart Summary*\n\n👤 *Name:* " ++ jsShow u.name ++
    "\n📅 *Born:* " ++
    (match u.birthDate with
     | some d => civilDateStr d
     | none => "undefined") ++
    "\n🕐 *Time:* " ++ jsShow u.birthTime ++
    "\n📍 *Place:* " ++ jsShow u.birthPlace ++
    "\n\n---\n\n☀️ *Sun in " ++ chart.sunSign ++
    "*\nYour core identity and ego\n\n🌙 *Moon in " ++ jsShow chart.moonSign ++
    "*\nYour emotions and inner self\n\n⬆️ *Ascendant in " ++
    jsShow chart.ascendant ++
    "*\nHow others perceive you\n\n---\n\nAsk me anything about your chart! 🔮"

/-- `handleChatMessage`: command routing in the source's priority order, then
the advice path (CHART_READY auto-advances to CHATTING there). -/
def handleChatMessage (env : ConvEnv) (u : UserRec) (message : String) :
    String × UserRec × Option NatalChart :=
  let lowerMessage := jsTrim (jsToLower message)
  if lowerMessage == "menu" || lowerMessage == "help" then (menuText, u, none)
  else if lowerMessage == "reset" || lowerMessage == "start over" then
    (resetMsg, { u with conversationState := .NEW }, none)
  else if strContains lowerMessage "my chart" || strContains lowerMessage "summary" then
    (getChartSummary u, u, none)
  else if strContains lowerMessage "today" || strContains lowerMessage "daily" ||
      strContains lowerMessage "horoscope" then
    (getDailyHoroscope env u, u, none)
  else
    let u2 :=
      if u.conversationState == ConversationState.CHART_READY then
        { u with conversationState := .CHATTING }
      else u
    (getPersonalizedAdvice env u message env.history, u2, none)

/-- One turn's outcome: the reply, the user record after all persisted
mutations, the chart saved this turn (if any), and the message-log writes. -/
structure TurnResult where
  reply : String
  user : UserRec
  savedChart : Option NatalChart
  savedMessages : List (MessageRole × String)
deriving DecidableEq

/-- `ConversationService.processMessage`: persist the inbound turn, route on
the current state, persist the reply. -/
def processMessage (env : ConvEnv) (u : UserRec) (text : String) : TurnResult :=
  let core :=
    match u.conversationState with
    | .NEW => handleNewUser u
    | .AWAITING_NAME => handleNameInput u text
    | .AWAITING_BIRTH_DATE => handleBirthDateInput env u text
    | .AWAITING_BIRTH_TIME => handleBirthTimeInput u text
    | .AWAITING_BIRTH_PLACE => handleBirthPlaceInput env u text
    | .CHART_READY => handleChatMessage env u text
    | .CHATTING => handleChatMessage env u text
  { reply := core.1
    user := core.2.1
    savedChart := core.2.2
    savedMessages := [(.USER, text), (.ASSISTANT, core.1)] }

/-! ### Spec-side sun-sign table

A second definition of the sun-sign mapping, written from the specification's
words ("a fixed table of (sign, start month/day, end month/day) ranges
spanning the calendar year, with the Capricorn range wrapping the year
boundary"), to be compared with the source's `getZodiacSign`. The default
arm is deliberately a value `getZodiacSign` never returns, so agreement on
all valid dates shows every date is covered by a listed range. -/

/-- Month/day pair between two month/day bounds (inclusive). -/
def betweenMD (startM startD endM endD month day : ℤ) : Bool :=
  (startM < month || (startM == month && startD ≤ day)) &&
  (month < endM || (month == endM && day ≤ endD))

def zodiacSignSpec (month day : ℤ) : String :=
  if (month == 12 && 22 ≤ day) || (month == 1 && day ≤ 19) then "Capricorn"
  else if betweenMD 1 20 2 18 month day then "Aquarius"
  else if betweenMD 2 19 3 20 month day then "Pisces"
  else if betweenMD 3 21 4 19 month day then "Aries"
  else if betweenMD 4 20 5 20 month day then "Taurus"
  else if betweenMD 5 21 6 20 month day then "Gemini"
  else if betweenMD 6 21 7 22 month day then "Cancer"
  else if betweenMD 7 23 8 22 month day then "Leo"
  else if betweenMD 8 23 9 22 month day then "Virgo"
  else if betweenMD 9 23 10 22 month day then "Libra"
  else if betweenMD 10 23 11 21 month day then "Scorpio"
  else if betweenMD 11 22 12 21 month day then "Sagittarius"
  else "Unknown"

/-- Number of days of month `m` in some year: the per-month maximum over the
years (Feb 29 exists in leap years), delimiting the valid month/day pairs of
"any year". -/
def maxMonthDay (m : ℕ) : ℕ :=
  if m = 2 then 29
  else if m = 4 ∨ m = 6 ∨ m = 9 ∨ m = 11 then 30
  else 31

/-- Valid calendar month/day pairs of some year. -/
def validMonthDay (m d : ℕ) : Bool :=
  1 ≤ m && m ≤ 12 && 1 ≤ d && d ≤ maxMonthDay m

/-! ### Concrete fixtures used by witnesses and counterexamples -/

/-- Environment with every remote dependency failing / unconfigured. -/
def envNoRemote : ConvEnv where
  now := ⟨2026, 10, 12⟩
  geocode := .error ()
  provider := { hasCredentials := false, tokenResult := .error (), chartResult := .error () }
  openaiConfigured := false
  llmResult := .error ()
  transits := []
  history := []
  todayWeekday := "Monday"
  todayDateStr := "10/12/2026"

/-- A freshly created user record (all nullable columns unset). -/
def blankUser : UserRec where
  name := none
  birthDate := none
  birthTime := none
  birthPlace := none
  birthLatitude := none
  birthLongitude := none
  timezone := none
  conversationState := .NEW
  natalChart := none

/-! ### C1 — provider errors are absorbed by the fallback chart -/

/-- C1: for a user with complete birth data, any error on the provider path —
missing credentials, a failed token exchange, or a failed chart
request/response parse — is caught by `generateNatalChart`, which returns the
chart of the deterministic fallback computation instead; the caller never
observes a provider error (the function is total into `NatalChart`). -/
theorem generateNatalChart_absorbs_provider_errors
    (env : ProviderEnv) (birthDate : CivilDate) (hours minutes : ℤ)
    (latitude longitude : ℚ)
    (herr : env.hasCredentials = false ∨ env.tokenResult = .error () ∨
      env.chartResult = .error ()) :
    generateNatalChart env birthDate hours minutes latitude longitude =
      calculateBasicChart birthDate hours minutes latitude longitude := by
  rcases env with ⟨cred, tok, chart⟩
  rcases herr with h | h | h
  · simp only at h
    subst h
    simp [generateNatalChart, fetchFromProkerala, getProkeralaToken,
      Bind.bind, Except.bind]
  · simp only at h
    subst h
    cases cred <;>
      simp [generateNatalChart, fetchFromProkerala, getProkeralaToken,
        Bind.bind, Except.bind]
  · simp only at h
    subst h
    cases cred <;> cases tok <;>
      simp [generateNatalChart, fetchFromProkerala, getProkeralaToken,
        Bind.bind, Except.bind]

/-- Witness for C1: with no credentials configured, the returned chart is the
fallback computation's chart. -/
theorem generateNatalChart_absorbs_provider_errors_witness :
    generateNatalChart
        { hasCredentials := false, tokenResult := .error (), chartResult := .error () }
        ⟨1990, 12, 25⟩ 14 30 0 0 =
      calculateBasicChart ⟨1990, 12, 25⟩ 14 30 0 0 :=
  generateNatalChart_absorbs_provider_errors _ _ _ _ _ _ (Or.inl rfl)

/-! ### C9 — the fallback chart is a pure function with 7 planets, 12 houses -/

/-- C9: the fallback chart computation is a deterministic pure function of the
birth date, time and coordinates — two calls with identical inputs yield the
identical chart record (sun, moon, ascendant, planets, houses) — and its
output always holds exactly 7 planets and exactly 12 houses. -/
theorem calculateBasicChart_deterministic_and_counts
    (birthDate : CivilDate) (hours minutes : ℤ) (latitude longitude : ℚ) :
    calculateBasicChart birthDate hours minutes latitude longitude =
      calculateBasicChart birthDate hours minutes latitude longitude ∧
    (calculateBasicChart birthDate hours minutes latitude longitude).planets.length = 7 ∧
    (calculateBasicChart birthDate hours minutes latitude longitude).houses.length = 12 :=
  ⟨rfl, rfl, rfl⟩

/-! ### C10 — the moon-sign index is negative for pre-1970 birth instants -/

/-- C10 (code bug): the claim says the moon-sign index
`floor(((millis / 28 days) mod 1) * 12)` lies in [0, 11] for every birth
instant, including pre-1970 ones. The code computes `%` with JS truncated
remainder, so for the birth date 31/12/1969 (epoch milliseconds −86400000)
the index is −1 and `zodiacSigns[-1]` is `undefined`: the fallback chart's
moon sign is not one of the 12 sign names. -/
theorem moonSignIndex_negative_pre_epoch :
    civilMillis ⟨1969, 12, 31⟩ = -86400000 ∧
    moonSignIndex (-86400000) = -1 ∧
    jsIndex zodiacSigns (-1) = none ∧
    (calculateBasicChart ⟨1969, 12, 31⟩ 12 0 0 0).moonSign = none := by
  have hmillis : civilMillis ⟨1969, 12, 31⟩ = -86400000 := by decide
  have hdiv : ((-86400000 : ℤ) : ℚ) / 2419200000 = -(1 / 28) := by norm_num
  have htrunc : jsTrunc ((-(1 / 28) : ℚ) / 1) = 0 := by
    have hq : ((-(1 / 28) : ℚ) / 1) = -(1 / 28) := by norm_num
    rw [jsTrunc, hq]
    norm_num
  have hidx : moonSignIndex (-86400000) = -1 := by
    unfold moonSignIndex jsRem
    rw [hdiv, htrunc]
    norm_num
  refine ⟨hmillis, hidx, by decide, ?_⟩
  have hproj : (calculateBasicChart ⟨1969, 12, 31⟩ 12 0 0 0).moonSign =
      jsIndex zodiacSigns (moonSignIndex (civilMillis ⟨1969, 12, 31⟩)) := rfl
  rw [hproj, hmillis, hidx]
  decide

/-! ### C3 — the sun-sign function matches the fixed table -/

/-- C3: for every calendar month/day pair from Jan 1 through Dec 31 of any
year, `getZodiacSign` returns the sign of the fixed range table (the
spec-side `zodiacSignSpec`, whose Capricorn range wraps the year boundary),
and every date in Dec 22–31 and Jan 1–19 maps to Capricorn. -/
theorem getZodiacSign_matches_table :
    (∀ m < 13, ∀ d < 32, validMonthDay m d = true →
      getZodiacSign (m : ℤ) (d : ℤ) = zodiacSignSpec (m : ℤ) (d : ℤ)) ∧
    (∀ d : ℕ, d < 32 → 22 ≤ d → getZodiacSign 12 (d : ℤ) = "Capricorn") ∧
    (∀ d : ℕ, d < 20 → 1 ≤ d → getZodiacSign 1 (d : ℤ) = "Capricorn") := by
  refine ⟨?_, ?_, ?_⟩ <;> decide

/-- Witness for C3: Dec 25 and Jan 5 agree with the table and are Capricorn. -/
theorem getZodiacSign_matches_table_witness :
    getZodiacSign 12 25 = zodiacSignSpec 12 25 ∧
    getZodiacSign 12 25 = "Capricorn" ∧
    getZodiacSign 1 5 = "Capricorn" :=
  ⟨getZodiacSign_matches_table.1 12 (by decide) 25 (by decide) (by decide),
   getZodiacSign_matches_table.2.1 25 (by decide) (by decide),
   getZodiacSign_matches_table.2.2 5 (by decide) (by decide)⟩

/-! ### C4 — the completeness predicate treats a 0 coordinate as missing -/

/-- A user whose birth date, time and place are present and whose coordinates
are non-null but equal to exactly 0 (equator / prime meridian). -/
def userAtZeroCoordinates : UserRec where
  name := some "John"
  birthDate := some ⟨1990, 12, 25⟩
  birthTime := some "14:30"
  birthPlace := some "Null Island"
  birthLatitude := some 0
  birthLongitude := some 0
  timezone := some "UTC"
  conversationState := .AWAITING_BIRTH_PLACE
  natalChart := none

/-- Counterexample to C4: the claim says `hasCompleteBirthData` returns true
when all fields are present even if a coordinate equals exactly 0; on the
code's truthiness check it returns false for latitude/longitude 0. -/
theorem hasCompleteBirthData_false_at_zero_coordinates :
    userAtZeroCoordinates.birthDate.isSome = true ∧
    userAtZeroCoordinates.birthTime = some "14:30" ∧
    userAtZeroCoordinates.birthPlace = some "Null Island" ∧
    userAtZeroCoordinates.birthLatitude = some 0 ∧
    userAtZeroCoordinates.birthLongitude = some 0 ∧
    hasCompleteBirthData userAtZeroCoordinates = false := by
  refine ⟨rfl, rfl, rfl, rfl, rfl, ?_⟩
  have h : optNumTruthy userAtZeroCoordinates.birthLatitude = false := by
    show optNumTruthy (some 0) = false
    simp [optNumTruthy]
  simp [hasCompleteBirthData, h]

/-- C4 as amended: `hasCompleteBirthData` returns true iff the birth date is
present, the birth time and place are present and non-empty, and both
coordinates are present and non-zero — a coordinate of exactly 0 counts as
missing. -/
theorem hasCompleteBirthData_iff (u : UserRec) :
    hasCompleteBirthData u = true ↔
      (u.birthDate.isSome = true ∧
       (∃ s, u.birthTime = some s ∧ s ≠ "") ∧
       (∃ s, u.birthPlace = some s ∧ s ≠ "") ∧
       (∃ q, u.birthLatitude = some q ∧ q ≠ 0) ∧
       (∃ q, u.birthLongitude = some q ∧ q ≠ 0)) := by
  rcases u with ⟨n, bd, bt, bp, la, lo, tz, st, ch⟩
  simp only [hasCompleteBirthData, optStrTruthy, optNumTruthy]
  cases bt <;> cases bp <;> cases la <;> cases lo <;> cases bd <;>
    simp [Bool.and_eq_true, beq_iff_eq, and_assoc]

/-! ### C8 — the advice history slice keeps the oldest, not the newest, turns -/

/-- Ten supplied history turns, newest first (`m0` is the most recent), as
`getRecentMessages(user.id, 10)` returns them. -/
def tenTurnHistory : List Message :=
  [⟨.USER, "m0"⟩, ⟨.ASSISTANT, "m1"⟩, ⟨.USER, "m2"⟩, ⟨.ASSISTANT, "m3"⟩,
   ⟨.USER, "m4"⟩, ⟨.ASSISTANT, "m5"⟩, ⟨.USER, "m6"⟩, ⟨.ASSISTANT, "m7"⟩,
   ⟨.USER, "m8"⟩, ⟨.ASSISTANT, "m9"⟩]

/-- C8 (code bug): on a newest-first history, `slice(-8)` takes the trailing
eight elements — the eight *oldest* turns — and `reverse()` puts them in
chronological order. With ten supplied turns the provider message list
therefore contains `m9 … m2` and omits the two most recent turns `m0`, `m1`,
whereas the claim (and the variable name `recentHistory`) call for the eight
most recent. -/
theorem adviceMessages_keep_oldest_eight :
    (jsSliceLastEight tenTurnHistory).reverse.map Message.content =
      ["m9", "m8", "m7", "m6", "m5", "m4", "m3", "m2"] ∧
    ((buildAdviceMessages blankUser "question" tenTurnHistory).map
      Prod.snd).contains "m0" = false ∧
    ((buildAdviceMessages blankUser "question" tenTurnHistory).map
      Prod.snd).contains "m1" = false ∧
    ((buildAdviceMessages blankUser "question" tenTurnHistory).map
      Prod.snd).contains "m2" = true := by
  refine ⟨by decide, by decide, by decide, by decide⟩

/-! ### C6 — the birth-time parser -/

/-- C6: the birth-time parser returns "12:00" for any input containing
"unknown" or "don't know" (case-insensitively); rejects any input whose first
extracted H:MM pattern has hour > 23 or minute > 59 (so "25:00" and "14:99"
are rejected); zero-pads a single-digit hour ("9:30" gives "09:30"); and
accepts a valid-looking substring despite extraneous characters (a leading
minus sign or a trailing "PM" is ignored rather than rejected). -/
theorem birthTime_parsing_spec :
    (∀ input : String,
      strContains (jsToLower input) "unknown" = true ∨
      strContains (jsToLower input) dontKnowStr = true →
      birthTimeOutcome input = .ok "12:00") ∧
    (∀ (input : String) (hs ms : List Char),
      strContains (jsToLower input) "unknown" = false →
      strContains (jsToLower input) dontKnowStr = false →
      firstTimeMatch input.data = some (hs, ms) →
      23 < digitsVal hs ∨ 59 < digitsVal ms →
      birthTimeOutcome input = .error invalidTimeValueMsg) ∧
    (∀ (input : String) (hs ms : List Char),
      strContains (jsToLower input) "unknown" = false →
      strContains (jsToLower input) dontKnowStr = false →
      firstTimeMatch input.data = some (hs, ms) →
      digitsVal hs ≤ 23 → digitsVal ms ≤ 59 → hs.length = 1 →
      birthTimeOutcome input = .ok (String.mk ('0' :: hs) ++ ":" ++ String.mk ms)) ∧
    birthTimeOutcome "25:00" = .error invalidTimeValueMsg ∧
    birthTimeOutcome "14:99" = .error invalidTimeValueMsg ∧
    birthTimeOutcome "9:30" = .ok "09:30" ∧
    birthTimeOutcome "-1:30" = .ok "01:30" ∧
    birthTimeOutcome "2:30 PM" = .ok "02:30" := by
  refine ⟨?_, ?_, ?_, by decide, by decide, by decide, by decide, by decide⟩
  · intro input h
    rcases h with h | h <;> simp [birthTimeOutcome, h]
  · intro input hs ms h1 h2 hm hbad
    rcases hbad with hb | hb <;>
      simp [birthTimeOutcome, h1, h2, hm, hb]
  · intro input hs ms h1 h2 hm hh hmm hlen
    simp [birthTimeOutcome, h1, h2, hm, Nat.not_lt.mpr hh, Nat.not_lt.mpr hmm,
      padHours, hlen]

/-- Witness for C6: the spec's own examples, through the theorem. -/
theorem birthTime_parsing_spec_witness :
    birthTimeOutcome "unknown" = .ok "12:00" ∧
    birthTimeOutcome "25:00" = .error invalidTimeValueMsg ∧
    birthTimeOutcome "9:30" =
      .ok (String.mk ('0' :: ['9']) ++ ":" ++ String.mk ['3', '0']) :=
  ⟨birthTime_parsing_spec.1 "unknown" (Or.inl (by decide)),
   birthTime_parsing_spec.2.1 "25:00" ['2', '5'] ['0', '0'] (by decide)
     (by decide) (by decide) (Or.inl (by decide)),
   birthTime_parsing_spec.2.2.1 "9:30" ['9'] ['3', '0'] (by decide) (by decide)
     (by decide) (by decide) (by decide) (by decide)⟩

/-! ### C5 — the birth-date parser -/

theorem daysInMonth_feb (y : ℤ) : daysInMonth y 2 = if isLeap y then 29 else 28 := by
  simp [daysInMonth]

theorem daysInMonth_mar (y : ℤ) : daysInMonth y 3 = 31 := by
  norm_num [daysInMonth]

theorem normDay_stop (fuel : ℕ) (y m d : ℤ) (h1 : ¬ d < 1)
    (h2 : ¬ daysInMonth y m < d) : normDay (Nat.succ fuel) y m d = (y, m, d) := by
  simp only [normDay, if_neg h1, if_neg h2]

theorem normDay_carry (fuel : ℕ) (y m d : ℤ) (h1 : ¬ d < 1)
    (h2 : daysInMonth y m < d) (h3 : ¬ m = 12) :
    normDay (Nat.succ fuel) y m d = normDay fuel y (m + 1) (d - daysInMonth y m) := by
  simp only [normDay, if_neg h1, if_pos h2, if_neg h3]

/-- The month component `normDay` produces stays in [1, 12] when it starts
there (each step moves to an adjacent month, wrapping at the year boundary). -/
theorem normDay_month_mem : ∀ (fuel : ℕ) (y m d : ℤ), 1 ≤ m → m ≤ 12 →
    1 ≤ (normDay fuel y m d).2.1 ∧ (normDay fuel y m d).2.1 ≤ 12 := by
  intro fuel
  induction fuel with
  | zero => intro y m d h1 h2; exact ⟨h1, h2⟩
  | succ n ih =>
    intro y m d h1 h2
    simp only [normDay]
    split
    · by_cases hm : m = 1
      · simp only [if_pos hm]
        exact ih _ _ _ (by omega) (by omega)
      · simp only [if_neg hm]
        exact ih _ _ _ (by omega) (by omega)
    · split
      · by_cases hm : m = 12
        · simp only [if_pos hm]
          exact ih _ _ _ (by omega) (by omega)
        · simp only [if_neg hm]
          exact ih _ _ _ (by omega) (by omega)
      · exact ⟨h1, h2⟩

theorem normDay_feb31 (y : ℤ) : normDay 8 y 2 31 = (y, 3, 31 - daysInMonth y 2) := by
  have h28 : daysInMonth y 2 = 28 ∨ daysInMonth y 2 = 29 := by
    rw [daysInMonth_feb]; cases h : isLeap y <;> simp
  have hcar : normDay 8 y 2 31 = normDay 7 y (2 + 1) (31 - daysInMonth y 2) :=
    normDay_carry 7 y 2 31 (by omega) (by rcases h28 with h | h <;> omega) (by omega)
  have hstop : normDay (Nat.succ 6) y 3 (31 - daysInMonth y 2) =
      (y, 3, 31 - daysInMonth y 2) :=
    normDay_stop 6 y 3 _ (by rcases h28 with h | h <;> omega)
      (by rw [daysInMonth_mar]; rcases h28 with h | h <;> omega)
  rw [hcar]
  exact hstop

/-- `new Date(y, 1, 31)` normalizes 31 February to early March. -/
theorem jsMakeDate_feb31 (y : ℤ) : (jsMakeDate y 2 31).2.1 = 3 := by
  have e1 : ((2 : ℤ) - 1).fdiv 12 = 0 := by decide
  have e2 : ((2 : ℤ) - 1).fmod 12 = 1 := by decide
  simp only [jsMakeDate, e1, e2, add_zero]
  norm_num [normDay_feb31]

theorem dateEchoOk_feb31 (y : ℤ) : dateEchoOk 31 2 y = false := by
  have h := jsMakeDate_feb31 y
  simp only [dateEchoOk, decide_eq_false_iff_not]
  intro hEq
  rw [hEq] at h
  norm_num at h

/-- `new Date(y, 12, d)` rolls into the following year: the month echo of a
month-13 input can never succeed. -/
theorem jsMakeDate_month13 (y d : ℤ) : (jsMakeDate y 13 d).2.1 ≤ 12 := by
  have e1 : ((13 : ℤ) - 1).fdiv 12 = 1 := by decide
  have e2 : ((13 : ℤ) - 1).fmod 12 = 0 := by decide
  simp only [jsMakeDate, e1, e2, zero_add]
  exact (normDay_month_mem 8 _ 1 d (by omega) (by omega)).2

theorem dateEchoOk_month13 (d y : ℤ) : dateEchoOk d 13 y = false := by
  have h := jsMakeDate_month13 y d
  simp only [dateEchoOk, decide_eq_false_iff_not]
  intro hEq
  rw [hEq] at h
  norm_num at h

/-- `new Date(y, 1, 29)` echoes 29 February exactly in leap years and
normalizes to 1 March otherwise (for years not subject to the [0,99]
adjustment). -/
theorem jsMakeDate_feb29 (y : ℤ) (hy : 100 ≤ y) :
    jsMakeDate y 2 29 = if isLeap y then (y, 2, 29) else (y, 3, 1) := by
  have hna : ¬ (0 ≤ y ∧ y ≤ 99) := by omega
  have e1 : ((2 : ℤ) - 1).fdiv 12 = 0 := by decide
  have e2 : ((2 : ℤ) - 1).fmod 12 = 1 := by decide
  have hred : jsMakeDate y 2 29 = normDay 8 y 2 29 := by
    simp only [jsMakeDate, if_neg hna, e1, e2, add_zero]
    norm_num
  rw [hred]
  cases h : isLeap y with
  | true =>
    have hdim : daysInMonth y 2 = 29 := by rw [daysInMonth_feb, h]; norm_num
    have hstop : normDay (Nat.succ 7) y 2 29 = (y, 2, 29) :=
      normDay_stop 7 y 2 29 (by omega) (by omega)
    simpa using hstop
  | false =>
    have hdim : daysInMonth y 2 = 28 := by rw [daysInMonth_feb, h]; norm_num
    have hcar : normDay 8 y 2 29 = normDay 7 y (2 + 1) (29 - daysInMonth y 2) :=
      normDay_carry 7 y 2 29 (by omega) (by omega) (by omega)
    have harg : (29 : ℤ) - daysInMonth y 2 = 1 := by omega
    have hstop : normDay (Nat.succ 6) y 3 1 = (y, 3, 1) :=
      normDay_stop 6 y 3 1 (by omega) (by rw [daysInMonth_mar]; omega)
    rw [hcar, harg]
    simpa using hstop

/-- C5: the birth-date parser (i) rejects, with the invalid-date reply, any
input whose extracted day/month/year do not round-trip through the
constructed calendar date, in particular (ii) 31/02 of any year and (iii) any
month-13 input; (iv) rejects any echoing date strictly after now; (v) rejects
any echoing, non-future year before 1900; and (vi) accepts 29 February of a
non-future year ≥ 1900 exactly when the year is a leap year. -/
theorem birthDate_validation_spec :
    (∀ (input : String) (now : CivilDate) (ds ms ys : List Char),
      firstDateMatch input.data = some (ds, ms, ys) →
      dateEchoOk (digitsVal ds) (digitsVal ms) (digitsVal ys) = false →
      birthDateOutcome input now = .error notValidDateMsg) ∧
    (∀ (y : ℤ) (now : CivilDate),
      validateParsedDate 31 2 y now = .error notValidDateMsg) ∧
    (∀ (d y : ℤ) (now : CivilDate),
      validateParsedDate d 13 y now = .error notValidDateMsg) ∧
    (∀ (d m y : ℤ) (now : CivilDate), dateEchoOk d m y = true →
      civilGt ⟨y, m, d⟩ now = true →
      validateParsedDate d m y now = .error futureDateMsg) ∧
    (∀ (d m y : ℤ) (now : CivilDate), dateEchoOk d m y = true →
      civilGt ⟨y, m, d⟩ now = false → y < 1900 →
      validateParsedDate d m y now = .error pre1900Msg) ∧
    (∀ (y : ℤ) (now : CivilDate), 1900 ≤ y → civilGt ⟨y, 2, 29⟩ now = false →
      (validateParsedDate 29 2 y now = .ok ⟨y, 2, 29⟩ ↔ isLeap y = true)) := by
  refine ⟨?_, ?_, ?_, ?_, ?_, ?_⟩
  · intro input now ds ms ys hm hecho
    simp [birthDateOutcome, hm, validateParsedDate, hecho]
  · intro y now
    simp [validateParsedDate, dateEchoOk_feb31]
  · intro d y now
    simp [validateParsedDate, dateEchoOk_month13]
  · intro d m y now hecho hfut
    simp [validateParsedDate, hecho, hfut]
  · intro d m y now hecho hfut h1900
    simp [validateParsedDate, hecho, hfut, h1900]
  · intro y now hy hfut
    have hmk := jsMakeDate_feb29 y (by omega)
    constructor
    · intro hok
      by_contra hleap
      rw [Bool.not_eq_true] at hleap
      rw [hleap, if_neg (by simp)] at hmk
      have hecho : dateEchoOk 29 2 y = false := by
        simp only [dateEchoOk, decide_eq_false_iff_not]
        intro hEq
        rw [hEq] at hmk
        have : (2 : ℤ) = 3 := congrArg (fun p => p.2.1) hmk
        norm_num at this
      rw [validateParsedDate, hecho] at hok
      simp at hok
    · intro hleap
      rw [hleap, if_pos rfl] at hmk
      have hecho : dateEchoOk 29 2 y = true := by
        simp [dateEchoOk, hmk]
      have h19 : ¬ y < 1900 := by omega
      rw [validateParsedDate, hecho]
      simp [hfut, h19]

/-- Witness for C5: the spec's own example dates, through the theorem. -/
theorem birthDate_validation_spec_witness :
    birthDateOutcome "31/02/1990" ⟨2026, 10, 12⟩ = .error notValidDateMsg ∧
    validateParsedDate 31 2 1990 ⟨2026, 10, 12⟩ = .error notValidDateMsg ∧
    validateParsedDate 25 13 1990 ⟨2026, 10, 12⟩ = .error notValidDateMsg ∧
    validateParsedDate 25 12 2099 ⟨2026, 10, 12⟩ = .error futureDateMsg ∧
    validateParsedDate 25 12 1850 ⟨2026, 10, 12⟩ = .error pre1900Msg ∧
    (validateParsedDate 29 2 2000 ⟨2026, 10, 12⟩ = .ok ⟨2000, 2, 29⟩ ↔
      isLeap 2000 = true) :=
  ⟨birthDate_validation_spec.1 "31/02/1990" _ ['3', '1'] ['0', '2']
     ['1', '9', '9', '0'] (by decide) (by decide),
   birthDate_validation_spec.2.1 1990 _,
   birthDate_validation_spec.2.2.1 25 1990 _,
   birthDate_validation_spec.2.2.2.1 25 12 2099 _ (by decide) (by decide),
   birthDate_validation_spec.2.2.2.2.1 25 12 1850 _ (by decide) (by decide)
     (by decide),
   birthDate_validation_spec.2.2.2.2.2 2000 _ (by decide) (by decide)⟩

/-! ### C2 — the reset command -/

/-- A user waiting for the name prompt's answer. -/
def userAwaitingName : UserRec :=
  { blankUser with conversationState := .AWAITING_NAME }

/-- Counterexample to C2: the reset command is only routed in the
CHART_READY/CHATTING handler. In AWAITING_NAME, sending "reset" is consumed
by the name handler: the text passes sanitization, is stored as the user's
name, and the state moves to AWAITING_BIRTH_DATE — not to NEW. -/
theorem reset_in_awaiting_name_collects_it_as_name :
    (processMessage envNoRemote userAwaitingName "reset").user.conversationState =
      ConversationState.AWAITING_BIRTH_DATE ∧
    (processMessage envNoRemote userAwaitingName "reset").user.name = some "reset" ∧
    ConversationState.AWAITING_BIRTH_DATE ≠ ConversationState.NEW := by
  refine ⟨by decide, by decide, by decide⟩

/-- C2 as amended: in the CHART_READY and CHATTING states — the states whose
handler performs command routing — the explicit reset command ("reset" or
"start over", case-insensitive, trimmed) sets the user's state to NEW and
replies with the restart prompt asking for the name again. (In the earlier
onboarding states the same text is treated as ordinary input by that state's
handler.) -/
theorem reset_returns_to_new_from_chat_states (env : ConvEnv) (u : UserRec)
    (input : String)
    (hs : u.conversationState = ConversationState.CHART_READY ∨
      u.conversationState = ConversationState.CHATTING)
    (hr : jsTrim (jsToLower input) = "reset" ∨
      jsTrim (jsToLower input) = "start over") :
    (processMessage env u input).user.conversationState = ConversationState.NEW ∧
    (processMessage env u input).reply = resetMsg := by
  rcases hs with h | h <;> rcases hr with h2 | h2 <;>
    simp [processMessage, handleChatMessage, h, h2]

/-- A user in the CHATTING state. -/
def userChatting : UserRec := { blankUser with conversationState := .CHATTING }

/-- Witness for the amended C2: "reset" sent while CHATTING. -/
theorem reset_returns_to_new_from_chat_states_witness :
    (processMessage envNoRemote userChatting "reset").user.conversationState =
      ConversationState.NEW ∧
    (processMessage envNoRemote userChatting "reset").reply = resetMsg :=
  reset_returns_to_new_from_chat_states envNoRemote userChatting "reset"
    (Or.inr rfl) (Or.inl (by decide))

/-! ### C7 — rejected input leaves the user untouched -/

/-- The four states that await an onboarding input. -/
def isAwaitingState : ConversationState → Bool
  | .AWAITING_NAME => true
  | .AWAITING_BIRTH_DATE => true
  | .AWAITING_BIRTH_TIME => true
  | .AWAITING_BIRTH_PLACE => true
  | _ => false

def exceptOk {ε α : Type} : Except ε α → Bool
  | .ok _ => true
  | .error _ => false

/-- Whether the state's handler accepts the input locally: name sanitized to
length ≥ 2; date pattern matched, echoing, not future, not pre-1900; time
known or valid; place of trimmed length ≥ 2 with a successful geocode. -/
def localAccepts (env : ConvEnv) (s : ConversationState) (input : String) : Bool :=
  match s with
  | .AWAITING_NAME => decide (2 ≤ (sanitizeName input).length)
  | .AWAITING_BIRTH_DATE => exceptOk (birthDateOutcome input env.now)
  | .AWAITING_BIRTH_TIME => exceptOk (birthTimeOutcome input)
  | .AWAITING_BIRTH_PLACE =>
    decide (2 ≤ (jsTrim input).length) && exceptOk env.geocode
  | _ => true

/-- The retry prompts the awaiting-state handlers can answer with. -/
def retryPrompts : List String :=
  [invalidNameMsg, invalidDateFormatMsg, notValidDateMsg, futureDateMsg,
   pre1900Msg, invalidTimeFormatMsg, invalidTimeValueMsg, invalidCityMsg,
   couldNotFindMsg]

theorem validateParsedDate_error_mem (d m y : ℤ) (now : CivilDate) (msg : String)
    (h : validateParsedDate d m y now = .error msg) : msg ∈ retryPrompts := by
  unfold validateParsedDate at h
  split_ifs at h <;> simp_all [retryPrompts]

theorem birthDateOutcome_error_mem (input : String) (now : CivilDate)
    (msg : String) (h : birthDateOutcome input now = .error msg) :
    msg ∈ retryPrompts := by
  unfold birthDateOutcome at h
  cases hm : firstDateMatch input.data with
  | none =>
    simp only [hm, Except.error.injEq] at h
    subst h
    decide
  | some t =>
    rcases t with ⟨ds, ms2, ys⟩
    simp only [hm] at h
    cases hv : validateParsedDate (digitsVal ds) (digitsVal ms2) (digitsVal ys) now with
    | ok val =>
      simp only [hv] at h
      simp at h
    | error m2 =>
      simp only [hv, Except.error.injEq] at h
      subst h
      exact validateParsedDate_error_mem _ _ _ _ _ hv

theorem birthTimeOutcome_error_mem (input : String) (msg : String)
    (h : birthTimeOutcome input = .error msg) : msg ∈ retryPrompts := by
  unfold birthTimeOutcome at h
  split_ifs at h
  cases hm : firstTimeMatch input.data with
  | none =>
    simp only [hm, Except.error.injEq] at h
    subst h
    decide
  | some p =>
    rcases p with ⟨hs, ms⟩
    simp only [hm] at h
    split_ifs at h
    simp only [Except.error.injEq] at h
    subst h
    decide

/-- C7: in every awaiting state, an input the state's handler rejects locally
(name sanitized below 2 characters; unmatched, non-echoing, future or
pre-1900 date; invalid time; place below 2 characters), and a geocoding
failure in AWAITING_BIRTH_PLACE, produce a retry prompt while leaving the
user record exactly as it was — no state transition, no birth-field write —
and persist no chart. -/
theorem rejected_input_changes_nothing (env : ConvEnv) (u : UserRec)
    (input : String)
    (ha : isAwaitingState u.conversationState = true)
    (hv : localAccepts env u.conversationState input = false) :
    (processMessage env u input).user = u ∧
    (processMessage env u input).savedChart = none ∧
    (processMessage env u input).reply ∈ retryPrompts := by
  cases hstate : u.conversationState with
  | NEW => rw [hstate] at ha; simp [isAwaitingState] at ha
  | CHART_READY => rw [hstate] at ha; simp [isAwaitingState] at ha
  | CHATTING => rw [hstate] at ha; simp [isAwaitingState] at ha
  | AWAITING_NAME =>
    rw [hstate] at hv
    have h2 : ¬ 2 ≤ (sanitizeName input).length := by
      simpa [localAccepts] using hv
    have hlt : (sanitizeName input).length < 2 := by omega
    refine ⟨?_, ?_, ?_⟩ <;>
      simp [processMessage, hstate, handleNameInput, hlt, retryPrompts]
  | AWAITING_BIRTH_DATE =>
    rw [hstate] at hv
    cases hbd : birthDateOutcome input env.now with
    | ok val =>
      rw [localAccepts] at hv
      rw [hbd] at hv
      simp [exceptOk] at hv
    | error msg =>
      refine ⟨?_, ?_, ?_⟩ <;>
        simp [processMessage, hstate, handleBirthDateInput, hbd]
      exact birthDateOutcome_error_mem _ _ _ hbd
  | AWAITING_BIRTH_TIME =>
    rw [hstate] at hv
    cases hbt : birthTimeOutcome input with
    | ok val =>
      rw [localAccepts] at hv
      rw [hbt] at hv
      simp [exceptOk] at hv
    | error msg =>
      refine ⟨?_, ?_, ?_⟩ <;>
        simp [processMessage, hstate, handleBirthTimeInput, hbt]
      exact birthTimeOutcome_error_mem _ _ hbt
  | AWAITING_BIRTH_PLACE =>
    rw [hstate] at hv
    by_cases hlen : (jsTrim input).length < 2
    · refine ⟨?_, ?_, ?_⟩ <;>
        simp [processMessage, hstate, handleBirthPlaceInput, hlen, retryPrompts]
    · have hge : 2 ≤ (jsTrim input).length := by omega
      have hgeo : ∃ e, env.geocode = .error e := by
        cases hg : env.geocode with
        | ok loc =>
          rw [localAccepts] at hv
          rw [hg] at hv
          simp [exceptOk, hge] at hv
        | error e => exact ⟨e, rfl⟩
      obtain ⟨e, hg⟩ := hgeo
      refine ⟨?_, ?_, ?_⟩ <;>
        simp [processMessage, hstate, handleBirthPlaceInput, hg, hlen, retryPrompts]

/-- A user who reached AWAITING_BIRTH_PLACE with date and time stored. -/
def userAwaitingPlace : UserRec :=
  { blankUser with
      name := some "John"
      birthDate := some ⟨1990, 12, 25⟩
      birthTime := some "14:30"
      conversationState := .AWAITING_BIRTH_PLACE }

/-- Witness for C7: a geocoding failure in AWAITING_BIRTH_PLACE. -/
theorem rejected_input_changes_nothing_witness :
    (processMessage envNoRemote userAwaitingPlace "London, UK").user =
      userAwaitingPlace ∧
    (processMessage envNoRemote userAwaitingPlace "London, UK").savedChart = none ∧
    (processMessage envNoRemote userAwaitingPlace "London, UK").reply ∈
      retryPrompts :=
  rejected_input_changes_nothing envNoRemote userAwaitingPlace "London, UK"
    (by decide) (by decide)

end NatalBot
